import Mathlib

/-!
Verification of the background-task layer of `gddo-server` (file
`gddo-server/background.go`): the periodic task scheduler
(`runBackgroundTasks`), the crawl orchestrator (`doCrawl`), the GitHub
update poller (`readGitHubUpdates`) and the suppression evaluator
(`checkPackagesToSuppress`).

Modelling choices:
* Go `time.Duration` and `time.Time` are integer nanoseconds (`Int`);
  `time.Time{}` (the zero value) is `0`, `t.After(u)` is `u < t`,
  `t.Add(d)` is `t + d`, and Go's truncating integer division on
  durations is `Int.div`.
* Go errors are `Option String` (`none` = `nil`); fallible collaborator
  calls return `Except String α`.
* Each task function is embedded as a pure function of an explicit
  environment record that fixes the results of every external
  collaborator call (database, document fetcher, update feed,
  suppression scorer) and of every `time.Now()` it performs, and
  returns the Go function's result together with the ordered trace of
  externally visible calls it makes.
-/

namespace Gddo

/-- Go `time.Duration`, in nanoseconds. -/
abbrev Duration := Int

/-- Go `time.Time`, as nanoseconds since the epoch; `time.Time{}` is `0`. -/
abbrev Time := Int

/-- Go constant `time.Minute` in nanoseconds. -/
def timeMinute : Duration := 60 * 1000000000

/-- One entry of the `backgroundTasks` slice: a named task with its
configured interval (`0` disables the task) and its next-run time
(zero-valued initially). The Go `fn` field is not stored here: the
outcome of calling it is supplied per tick by a `TaskRun`. -/
structure Task where
  name : String
  interval : Duration
  next : Time
  deriving Repr, DecidableEq

/-- Everything one scheduler-loop iteration observes about one task:
the `time.Now()` taken before the eligibility check (`start`), the
`time.Now()` taken after `task.fn()` returns (`finish`), and the error
value `task.fn()` returned (`none` = success). -/
structure TaskRun where
  start : Time
  finish : Time
  fnErr : Option String
  deriving Repr, DecidableEq

/-- The sleep computation at the top of `runBackgroundTasks`:
starting from `time.Minute`, each task with `*task.interval > 0 &&
sleep > *task.interval` lowers `sleep` to its interval. -/
def computeSleep (tasks : List Task) : Duration :=
  tasks.foldl
    (fun sleep t => if 0 < t.interval ∧ t.interval < sleep then t.interval else sleep)
    timeMinute

/-- The list of positive configured intervals, in task order. -/
def positiveIntervals (tasks : List Task) : List Duration :=
  tasks.filterMap (fun t => if 0 < t.interval then some t.interval else none)

/-- One iteration of the inner `for _, task := range backgroundTasks`
body for a single task: if `*task.interval > 0 && start.After(task.next)`,
the task's function is invoked (its error is only logged) and
`task.next` is set to `time.Now().Add(*task.interval)`; otherwise the
task is untouched.  Returns the updated task and whether the function
was invoked. -/
def tickTask (t : Task) (r : TaskRun) : Task × Bool :=
  if 0 < t.interval ∧ t.next < r.start then
    ({ t with next := r.finish + t.interval }, true)
  else
    (t, false)

/-- A single task followed across a sequence of scheduler ticks,
returning its final state and the number of times its function was
invoked. -/
def runTask : Task → List TaskRun → Task × Nat
  | t, [] => (t, 0)
  | t, r :: rs =>
    let (t', b) := tickTask t r
    let (t'', n) := runTask t' rs
    (t'', (if b then 1 else 0) + n)

theorem tickTask_interval (t : Task) (r : TaskRun) :
    ((tickTask t r).1).interval = t.interval := by
  unfold tickTask
  split <;> rfl

theorem computeSleep_foldl (tasks : List Task) (acc : Duration) :
    tasks.foldl
      (fun sleep t => if 0 < t.interval ∧ t.interval < sleep then t.interval else sleep)
      acc = (positiveIntervals tasks).foldl min acc := by
  induction tasks generalizing acc with
  | nil => rfl
  | cons t ts ih =>
    simp only [List.foldl_cons, positiveIntervals, List.filterMap_cons]
    by_cases hpos : 0 < t.interval
    · simp only [hpos, if_pos, true_and]
      by_cases hlt : t.interval < acc
      · rw [if_pos hlt, ih, List.foldl_cons, min_eq_right (le_of_lt hlt)]; rfl
      · rw [if_neg hlt, ih, List.foldl_cons, min_eq_left (le_of_not_lt hlt)]; rfl
    · simp only [hpos, false_and, if_neg, if_false, not_false_iff]
      rw [ih]
      rfl

/-- The claim's own reading of the tick period: the minimum of the
positive configured intervals, with one minute used only when no
interval is positive. -/
def claimedSleep (tasks : List Task) : Duration :=
  match positiveIntervals tasks with
  | [] => timeMinute
  | d :: ds => ds.foldl min d

/-- C1 counterexample: a single task configured with a two-minute
interval.  Some interval is positive, yet the computed sleep is one
minute, not the minimum positive interval (two minutes). -/
theorem computeSleep_ne_minimum_positive :
    computeSleep [⟨"Crawl", 2 * timeMinute, 0⟩] = timeMinute ∧
      claimedSleep [⟨"Crawl", 2 * timeMinute, 0⟩] = 2 * timeMinute ∧
      computeSleep [⟨"Crawl", 2 * timeMinute, 0⟩] ≠
        claimedSleep [⟨"Crawl", 2 * timeMinute, 0⟩] := by
  refine ⟨by decide, by decide, by decide⟩

/-- C1 (amended): the tick period computed at the start of
`runBackgroundTasks` equals the minimum of one minute and all positive
configured task intervals; in particular it is one minute when no
interval is positive, and equals the minimum positive interval
whenever some positive interval is at most one minute. -/
theorem computeSleep_eq_min_minute_positives (tasks : List Task) :
    computeSleep tasks = (positiveIntervals tasks).foldl min timeMinute := by
  unfold computeSleep
  exact computeSleep_foldl tasks timeMinute

/-- C2: on every tick and for every task, whether the task's function
returns success or failure (`r.fnErr` is arbitrary), if the function is
invoked then `task.next` is set to the post-invocation current time
plus the configured interval — strictly more than the old value plus
the interval — and if it is not invoked `task.next` is unchanged, so
the scheduler mutates the timestamp nowhere else. -/
theorem tickTask_next (t : Task) (r : TaskRun) (h : r.start ≤ r.finish) :
    ((tickTask t r).2 = true →
        ((tickTask t r).1).next = r.finish + t.interval ∧
          t.next + t.interval < ((tickTask t r).1).next) ∧
      ((tickTask t r).2 = false → ((tickTask t r).1).next = t.next) := by
  unfold tickTask
  by_cases hc : 0 < t.interval ∧ t.next < r.start
  · rw [if_pos hc]
    refine ⟨fun _ => ⟨rfl, ?_⟩, fun hb => by cases hb⟩
    have h1 : t.next + t.interval < r.start + t.interval :=
      add_lt_add_right hc.2 t.interval
    have h2 : r.start + t.interval ≤ r.finish + t.interval :=
      add_le_add_right h t.interval
    exact lt_of_lt_of_le h1 h2
  · rw [if_neg hc]
    refine ⟨?_, ?_⟩
    · intro hb
      cases hb
    · intro _
      rfl

/-- C2 witness: a task with interval 1000 ns, next-run time 0, invoked
at start time 1 with its function failing, finishing at time 2. -/
theorem tickTask_next_witness :
    (1 : Time) ≤ 2 ∧
      (((tickTask ⟨"Crawl", 1000, 0⟩ ⟨1, 2, some "boom"⟩).2 = true →
          ((tickTask ⟨"Crawl", 1000, 0⟩ ⟨1, 2, some "boom"⟩).1).next = 2 + 1000 ∧
            (0 : Time) + 1000 <
              ((tickTask ⟨"Crawl", 1000, 0⟩ ⟨1, 2, some "boom"⟩).1).next) ∧
        ((tickTask ⟨"Crawl", 1000, 0⟩ ⟨1, 2, some "boom"⟩).2 = false →
          ((tickTask ⟨"Crawl", 1000, 0⟩ ⟨1, 2, some "boom"⟩).1).next = 0)) :=
  ⟨by decide, tickTask_next ⟨"Crawl", 1000, 0⟩ ⟨1, 2, some "boom"⟩ (by decide)⟩

/-- C3: a task whose configured interval is zero is never invoked,
across any sequence of ticks with arbitrary observed times. -/
theorem runTask_zero_interval (t : Task) (rs : List TaskRun)
    (h : t.interval = 0) : (runTask t rs).2 = 0 := by
  induction rs generalizing t with
  | nil => rfl
  | cons r rs ih =>
    have hc : ¬(0 < t.interval ∧ t.next < r.start) := fun hx => by
      rw [h] at hx
      exact lt_irrefl 0 hx.1
    unfold runTask tickTask
    rw [if_neg hc]
    simpa using ih t h

/-- C3 witness: a disabled task (interval 0) observed across two ticks
far in the future is invoked zero times. -/
theorem runTask_zero_interval_witness :
    (Task.mk "GitHub updates" 0 0).interval = 0 ∧
      (runTask ⟨"GitHub updates", 0, 0⟩
        [⟨1000000000000, 1000000000001, none⟩,
         ⟨9000000000000, 9000000000002, some "fail"⟩]).2 = 0 :=
  ⟨rfl,
    runTask_zero_interval ⟨"GitHub updates", 0, 0⟩
      [⟨1000000000000, 1000000000001, none⟩,
       ⟨9000000000000, 9000000000002, some "fail"⟩] rfl⟩

/-! ## Crawl orchestrator (`doCrawl`) -/

/-- The fields of a package document that `doCrawl` reads:
`pdoc.ImportPath`, `pdoc.ProjectRoot`, `pdoc.Etag`. -/
structure PkgDoc where
  importPath : String
  projectRoot : String
  etag : String
  deriving Repr, DecidableEq

/-- The results of every external call one `doCrawl` invocation can
make, fixed up front: `db.PopNewCrawl()`, the `crawlDoc("new", ...)`
outcome (returned document and error), `db.Get("-")` (document,
sibling-package count, next-crawl time), the error of
`crawlDoc("crawl", ...)`, and the two `time.Now()` readings `doCrawl`
takes after the `db.Get` (`now`, for the `nextCrawl.After` check) and
before rescheduling (`now2`). -/
structure CrawlEnv where
  popNewCrawl : Except String (String × Bool)
  crawlNewDoc : Option PkgDoc
  crawlNewErr : Option String
  dbGet : Except String (Option PkgDoc × Nat × Time)
  now : Time
  crawlExistingErr : Option String
  now2 : Time
  deriving Repr

/-- The externally visible calls `doCrawl` makes, in order, with the
arguments the claims talk about: `crawlDoc`'s first two arguments and
its `hasSubdirs` flag, `db.AddBadCrawl`'s import path, `db.Get`'s key,
and `db.SetNextCrawlEtag`'s project root, etag and time. -/
inductive CrawlEvent where
  | popNewCrawl
  | crawl (kind : String) (importPath : String) (hasSubdirs : Bool)
  | addBadCrawl (importPath : String)
  | dbGet (key : String)
  | setNextCrawlEtag (projectRoot : String) (etag : String) (t : Time)
  deriving Repr, DecidableEq

/-- Function `doCrawl` from `background.go`, as a function of the collaborator
environment and the `maxAge` flag (a duration configured outside this
file), returning the Go function's error result and the trace of
external calls.  Mirrors the source line by line: a `PopNewCrawl`
error is logged and swallowed; a non-empty popped path is crawled as
`"new"` and, when the crawl yields nil document and nil error, marked
as a bad crawl; otherwise the most overdue package from `db.Get("-")`
is refreshed when due, and a failed refresh reschedules it to
`time.Now().Add(*maxAge / 3)` (Go duration division truncates, hence
`Int.tdiv`). -/
def doCrawl (maxAge : Duration) (env : CrawlEnv) : Option String × List CrawlEvent :=
  match env.popNewCrawl with
  | .error _ => (none, [.popNewCrawl])
  | .ok (importPath, hasSubdirs) =>
    if importPath ≠ "" then
      if env.crawlNewDoc = none ∧ env.crawlNewErr = none then
        (none, [.popNewCrawl, .crawl "new" importPath hasSubdirs,
          .addBadCrawl importPath])
      else
        (none, [.popNewCrawl, .crawl "new" importPath hasSubdirs])
    else
      match env.dbGet with
      | .error _ => (none, [.popNewCrawl, .dbGet "-"])
      | .ok (pdocOpt, numPkgs, nextCrawl) =>
        match pdocOpt with
        | none => (none, [.popNewCrawl, .dbGet "-"])
        | some pdoc =>
          if env.now < nextCrawl then
            (none, [.popNewCrawl, .dbGet "-"])
          else
            match env.crawlExistingErr with
            | some _ =>
              (none, [.popNewCrawl, .dbGet "-",
                .crawl "crawl" pdoc.importPath (decide (0 < numPkgs)),
                .setNextCrawlEtag pdoc.projectRoot pdoc.etag
                  (env.now2 + Int.tdiv maxAge 3)])
            | none =>
              (none, [.popNewCrawl, .dbGet "-",
                .crawl "crawl" pdoc.importPath (decide (0 < numPkgs))])

/-- Recognizer for `crawlDoc` invocations in a trace. -/
def isCrawlEvent : CrawlEvent → Bool
  | .crawl _ _ _ => true
  | _ => false

/-- C10: `doCrawl` returns `nil` on every execution path — pop
failure, fetch failure, crawl failure included — so the scheduler's
task-failure logging branch never fires for the crawl task. -/
theorem doCrawl_always_returns_nil (maxAge : Duration) (env : CrawlEnv) :
    (doCrawl maxAge env).1 = none := by
  unfold doCrawl
  repeat' split
  all_goals rfl

/-- C4: one `doCrawl` invocation makes at most one `crawlDoc` call,
and when `db.PopNewCrawl` yields a non-empty import path that target
is crawled as `"new"`, `db.Get` is never reached, and every crawl in
the trace is that new-target crawl. -/
theorem doCrawl_one_crawl_new_first (maxAge : Duration) (env : CrawlEnv) :
    ((doCrawl maxAge env).2.countP isCrawlEvent ≤ 1) ∧
      (∀ p s, env.popNewCrawl = .ok (p, s) → p ≠ "" →
        CrawlEvent.crawl "new" p s ∈ (doCrawl maxAge env).2 ∧
          CrawlEvent.dbGet "-" ∉ (doCrawl maxAge env).2 ∧
          ∀ k q b, CrawlEvent.crawl k q b ∈ (doCrawl maxAge env).2 →
            k = "new" ∧ q = p ∧ b = s) := by
  constructor
  · unfold doCrawl
    repeat' split
    all_goals simp [isCrawlEvent]
  · intro p s hpop hp
    unfold doCrawl
    rw [hpop]
    simp only [ne_eq, hp, not_false_eq_true, if_true]
    split
    · refine ⟨by simp, by simp, ?_⟩
      intro k q b hmem
      simp only [List.mem_cons, List.not_mem_nil, or_false] at hmem
      rcases hmem with h | h | h
      · cases h
      · injection h with hk hq hb
        exact ⟨hk, hq, hb⟩
      · cases h
    · refine ⟨by simp, by simp, ?_⟩
      intro k q b hmem
      simp only [List.mem_cons, List.not_mem_nil, or_false] at hmem
      rcases hmem with h | h
      · cases h
      · injection h with hk hq hb
        exact ⟨hk, hq, hb⟩

/-- A concrete environment in which the new-crawl queue yields
`"example.com/foo"` and the fetch returns nil document, nil error. -/
def fooEnv : CrawlEnv :=
  { popNewCrawl := .ok ("example.com/foo", true)
    crawlNewDoc := none
    crawlNewErr := none
    dbGet := .ok (none, 0, 0)
    now := 0
    crawlExistingErr := none
    now2 := 0 }

/-- C4 witness: on `fooEnv` the popped path is non-empty, the new
target is crawled and the existing-package path is not reached. -/
theorem doCrawl_one_crawl_new_first_witness :
    fooEnv.popNewCrawl = .ok ("example.com/foo", true) ∧
      "example.com/foo" ≠ "" ∧
      (doCrawl 0 fooEnv).2.countP isCrawlEvent ≤ 1 ∧
      CrawlEvent.crawl "new" "example.com/foo" true ∈ (doCrawl 0 fooEnv).2 ∧
      CrawlEvent.dbGet "-" ∉ (doCrawl 0 fooEnv).2 :=
  ⟨rfl, by decide, (doCrawl_one_crawl_new_first 0 fooEnv).1,
    ((doCrawl_one_crawl_new_first 0 fooEnv).2 "example.com/foo" true rfl
      (by decide)).1,
    ((doCrawl_one_crawl_new_first 0 fooEnv).2 "example.com/foo" true rfl
      (by decide)).2.1⟩

/-- C5: when the popped new target's fetch returns nil document and
nil error, `doCrawl` marks the import path as a bad crawl and returns,
its whole trace being exactly pop, the one new crawl, and the
bad-crawl mark. -/
theorem doCrawl_bad_crawl_marked (maxAge : Duration) (env : CrawlEnv)
    (p : String) (s : Bool)
    (hpop : env.popNewCrawl = .ok (p, s)) (hp : p ≠ "")
    (hdoc : env.crawlNewDoc = none) (herr : env.crawlNewErr = none) :
    doCrawl maxAge env =
      (none, [.popNewCrawl, .crawl "new" p s, .addBadCrawl p]) := by
  unfold doCrawl
  rw [hpop]
  simp [hp, hdoc, herr]

/-- C5 witness: on `fooEnv`, `doCrawl` crawls `"example.com/foo"` once
and records the bad-crawl mark for it. -/
theorem doCrawl_bad_crawl_marked_witness :
    fooEnv.popNewCrawl = .ok ("example.com/foo", true) ∧
      "example.com/foo" ≠ "" ∧
      fooEnv.crawlNewDoc = none ∧ fooEnv.crawlNewErr = none ∧
      doCrawl 0 fooEnv =
        (none, [.popNewCrawl, .crawl "new" "example.com/foo" true,
          .addBadCrawl "example.com/foo"]) :=
  ⟨rfl, by decide, rfl, rfl,
    doCrawl_bad_crawl_marked 0 fooEnv "example.com/foo" true rfl (by decide)
      rfl rfl⟩

/-- C6: when refreshing the selected existing package fails, its next
crawl is rescheduled to the reading of `time.Now()` taken at that
point plus `maxAge / 3`; for any `maxAge` of at least 3 ns (every real
staleness window) that time is strictly in the future. -/
theorem doCrawl_failure_reschedules (maxAge : Duration) (env : CrawlEnv)
    (s : Bool) (pdoc : PkgDoc) (numPkgs : Nat) (nextCrawl : Time) (e : String)
    (hpop : env.popNewCrawl = .ok ("", s))
    (hget : env.dbGet = .ok (some pdoc, numPkgs, nextCrawl))
    (hdue : nextCrawl ≤ env.now)
    (hfail : env.crawlExistingErr = some e)
    (hage : 3 ≤ maxAge) :
    CrawlEvent.setNextCrawlEtag pdoc.projectRoot pdoc.etag
        (env.now2 + Int.tdiv maxAge 3) ∈ (doCrawl maxAge env).2 ∧
      env.now2 < env.now2 + Int.tdiv maxAge 3 := by
  have hpos : 0 < Int.tdiv maxAge 3 := by
    have h0 : (0 : Int) ≤ maxAge := le_trans (by decide) hage
    have hage3 : (3 : Int) ≤ (maxAge : Int) := hage
    rw [Int.tdiv_eq_ediv h0 (by decide)]
    omega
  constructor
  · unfold doCrawl
    rw [hpop]
    simp only [ne_eq, not_true_eq_false, if_false, hget]
    rw [if_neg (not_lt.mpr hdue), hfail]
    simp
  · exact lt_add_of_pos_right env.now2 hpos

/-- A concrete environment in which the queue is empty, the most
overdue package is due, and its refresh fails. -/
def overdueEnv : CrawlEnv :=
  { popNewCrawl := .ok ("", false)
    crawlNewDoc := none
    crawlNewErr := none
    dbGet := .ok (some ⟨"example.com/bar", "example.com/bar", "etag1"⟩, 2, 50)
    now := 100
    crawlExistingErr := some "fetch failed"
    now2 := 110 }

/-- C6 witness: with a 24-hour `maxAge`, the failed refresh of
`example.com/bar` is rescheduled 8 hours into the future. -/
theorem doCrawl_failure_reschedules_witness :
    overdueEnv.popNewCrawl = .ok ("", false) ∧
      overdueEnv.dbGet =
        .ok (some ⟨"example.com/bar", "example.com/bar", "etag1"⟩, 2, 50) ∧
      (50 : Time) ≤ 100 ∧
      overdueEnv.crawlExistingErr = some "fetch failed" ∧
      (3 : Int) ≤ 86400000000000 ∧
      (CrawlEvent.setNextCrawlEtag "example.com/bar" "etag1"
          (110 + Int.tdiv 86400000000000 3) ∈
        (doCrawl 86400000000000 overdueEnv).2 ∧
        (110 : Time) < 110 + Int.tdiv 86400000000000 3) :=
  ⟨rfl, rfl, by decide, rfl, by decide,
    doCrawl_failure_reschedules 86400000000000 overdueEnv false
      ⟨"example.com/bar", "example.com/bar", "etag1"⟩ 2 50 "fetch failed"
      rfl rfl (by decide) rfl (by decide)⟩

/-! ## Update poller (`readGitHubUpdates`) -/

/-- The results of the external calls one `readGitHubUpdates` run can
make: `db.GetGob` (the persisted cursor), `gosrc.GetGitHubUpdates`
(new cursor and changed repository names), the per-path result of
`db.BumpCrawl`, and the result of `db.PutGob`. -/
structure UpdateEnv where
  getGob : Except String String
  feed : Except String (String × List String)
  bumpErr : String → Option String
  putGobErr : Option String

/-- The externally visible calls of `readGitHubUpdates`, in order.
`bumpCrawl` records the attempted path together with the error
`db.BumpCrawl` returned for it (which the source only logs). -/
inductive UpdateEvent where
  | getGob (key : String)
  | feedFetch (cursor : String)
  | bumpCrawl (importPath : String) (err : Option String)
  | putGob (key : String) (value : String)
  deriving Repr, DecidableEq

/-- The blob key `readGitHubUpdates` uses for its cursor. -/
def gitHubUpdatesKey : String := "gitHubUpdates"

/-- Function `readGitHubUpdates` from `background.go`: read the cursor (fail
fast on error), poll the feed (fail on error), attempt `db.BumpCrawl`
on `"github.com/" + name` for every returned name (logging bump
errors), then persist the new cursor, returning `db.PutGob`'s error. -/
def readGitHubUpdates (env : UpdateEnv) : Option String × List UpdateEvent :=
  match env.getGob with
  | .error e => (some e, [.getGob gitHubUpdatesKey])
  | .ok last =>
    match env.feed with
    | .error e => (some e, [.getGob gitHubUpdatesKey, .feedFetch last])
    | .ok (newLast, names) =>
      (env.putGobErr,
        [.getGob gitHubUpdatesKey, .feedFetch last] ++
          (names.map fun n =>
            UpdateEvent.bumpCrawl ("github.com/" ++ n)
              (env.bumpErr ("github.com/" ++ n))) ++
          [.putGob gitHubUpdatesKey newLast])

/-- C7: on a successful poll the run's trace is exactly the cursor
read, the feed fetch, one `BumpCrawl` attempt per returned name (with
whatever per-name error occurred), and then — after every bump attempt
— the single cursor write; each name's bump attempt is in the trace no
matter which bumps fail. -/
theorem readGitHubUpdates_bumps_before_put (env : UpdateEnv)
    (last newLast : String) (names : List String)
    (hget : env.getGob = .ok last)
    (hfeed : env.feed = .ok (newLast, names)) :
    (readGitHubUpdates env).2 =
        [.getGob gitHubUpdatesKey, .feedFetch last] ++
          (names.map fun n =>
            UpdateEvent.bumpCrawl ("github.com/" ++ n)
              (env.bumpErr ("github.com/" ++ n))) ++
          [.putGob gitHubUpdatesKey newLast] ∧
      ∀ n ∈ names,
        UpdateEvent.bumpCrawl ("github.com/" ++ n)
          (env.bumpErr ("github.com/" ++ n)) ∈ (readGitHubUpdates env).2 := by
  have htrace : (readGitHubUpdates env).2 =
      [.getGob gitHubUpdatesKey, .feedFetch last] ++
        (names.map fun n =>
          UpdateEvent.bumpCrawl ("github.com/" ++ n)
            (env.bumpErr ("github.com/" ++ n))) ++
        [.putGob gitHubUpdatesKey newLast] := by
    unfold readGitHubUpdates
    rw [hget, hfeed]
  refine ⟨htrace, ?_⟩
  intro n hn
  rw [htrace]
  simp only [List.mem_append, List.mem_map]
  exact Or.inl (Or.inr ⟨n, hn, rfl⟩)

/-- A concrete update environment matching the spec's scenario 4: the
cursor reads `"A"`, the feed returns cursor `"B"` and names `x`, `y`,
and enqueueing `github.com/y` fails. -/
def scenario4Env : UpdateEnv :=
  { getGob := .ok "A"
    feed := .ok ("B", ["x", "y"])
    bumpErr := fun p => if p = "github.com/y" then some "enqueue failed" else none
    putGobErr := none }

/-- C7 witness: in scenario 4, `x` is still bumped, the failed bump of
`y` is recorded, and the cursor write to `"B"` comes after both. -/
theorem readGitHubUpdates_bumps_before_put_witness :
    scenario4Env.getGob = .ok "A" ∧
      scenario4Env.feed = .ok ("B", ["x", "y"]) ∧
      ((readGitHubUpdates scenario4Env).2 =
          [.getGob gitHubUpdatesKey, .feedFetch "A"] ++
            (["x", "y"].map fun n =>
              UpdateEvent.bumpCrawl ("github.com/" ++ n)
                (scenario4Env.bumpErr ("github.com/" ++ n))) ++
            [.putGob gitHubUpdatesKey "B"] ∧
        ∀ n ∈ ["x", "y"],
          UpdateEvent.bumpCrawl ("github.com/" ++ n)
            (scenario4Env.bumpErr ("github.com/" ++ n)) ∈
            (readGitHubUpdates scenario4Env).2) :=
  ⟨rfl, rfl, readGitHubUpdates_bumps_before_put scenario4Env "A" "B" ["x", "y"]
    rfl rfl⟩

/-- C8: when reading the persisted cursor fails, `readGitHubUpdates`
returns that error at once; its trace holds only the cursor read —
no feed fetch, no bump attempt, no cursor write. -/
theorem readGitHubUpdates_cursor_read_fails_fast (env : UpdateEnv)
    (e : String) (hget : env.getGob = .error e) :
    readGitHubUpdates env = (some e, [.getGob gitHubUpdatesKey]) ∧
      (∀ c, UpdateEvent.feedFetch c ∉ (readGitHubUpdates env).2) ∧
      (∀ p r, UpdateEvent.bumpCrawl p r ∉ (readGitHubUpdates env).2) ∧
      (∀ k v, UpdateEvent.putGob k v ∉ (readGitHubUpdates env).2) := by
  have h : readGitHubUpdates env = (some e, [.getGob gitHubUpdatesKey]) := by
    unfold readGitHubUpdates
    rw [hget]
  refine ⟨h, ?_, ?_, ?_⟩ <;> intro a
  · rw [h]; simp
  · intro r; rw [h]; simp
  · intro v; rw [h]; simp

/-- C8 witness: a corrupt cursor read aborts the run with that error
and an empty remainder of the trace. -/
theorem readGitHubUpdates_cursor_read_fails_fast_witness :
    (UpdateEnv.mk (.error "corrupt gob") (.ok ("B", ["x"])) (fun _ => none)
        none).getGob = .error "corrupt gob" ∧
      (readGitHubUpdates
          (UpdateEnv.mk (.error "corrupt gob") (.ok ("B", ["x"]))
            (fun _ => none) none) =
          (some "corrupt gob", [.getGob gitHubUpdatesKey]) ∧
        (∀ c, UpdateEvent.feedFetch c ∉
          (readGitHubUpdates (UpdateEnv.mk (.error "corrupt gob")
            (.ok ("B", ["x"])) (fun _ => none) none)).2) ∧
        (∀ p r, UpdateEvent.bumpCrawl p r ∉
          (readGitHubUpdates (UpdateEnv.mk (.error "corrupt gob")
            (.ok ("B", ["x"])) (fun _ => none) none)).2) ∧
        (∀ k v, UpdateEvent.putGob k v ∉
          (readGitHubUpdates (UpdateEnv.mk (.error "corrupt gob")
            (.ok ("B", ["x"])) (fun _ => none) none)).2)) :=
  ⟨rfl, readGitHubUpdates_cursor_read_fails_fast
    (UpdateEnv.mk (.error "corrupt gob") (.ok ("B", ["x"])) (fun _ => none)
      none) "corrupt gob" rfl⟩

/-! ## Suppression evaluator (`checkPackagesToSuppress`) -/

/-- One result from `gddoexp.ShouldSuppressPackages`:
`response.Package.Path`, `response.Error`, `response.Suppress`. -/
structure SuppressResponse where
  path : String
  error : Option String
  suppress : Bool
  deriving Repr, DecidableEq

/-- The results of the external calls one `checkPackagesToSuppress`
run can make: `database.New()`, `db.AllPackages()`, the
`url.ParseQuery(gitHubCredentials)` outcome (an error is only possible
when credentials are configured), the stream of scorer responses, and
the per-path results of `db.Get` and `db.Put`. -/
structure SuppressEnv where
  dbNewErr : Option String
  allPackages : Except String (List String)
  credParseErr : Option String
  responses : List SuppressResponse
  dbGet : String → Except String PkgDoc
  putErr : String → Option String

/-- The catalog calls the suppression loop makes.  `put` records the
re-fetched record being persisted, the crawl time and hide flag passed
to `db.Put`, and `db.Put`'s (logged-only) error. -/
inductive SuppressEvent where
  | dbGet (path : String)
  | put (pkg : PkgDoc) (nextCrawl : Time) (hide : Bool) (err : Option String)
  deriving Repr, DecidableEq

/-- The zero value `time.Time{}`. -/
def zeroTime : Time := 0

/-- The body of the `for response := range ...` loop in
`checkPackagesToSuppress` for a single response: a scoring error or a
non-suppress verdict is skipped without touching the catalog; a
suppress verdict re-fetches the record with `db.Get` (skipping on
failure) and persists it via `db.Put(pkg, time.Time{}, true)`. -/
def processSuppressResponse (env : SuppressEnv) (r : SuppressResponse) :
    List SuppressEvent :=
  if r.error.isSome then []
  else if !r.suppress then []
  else
    match env.dbGet r.path with
    | .error _ => [.dbGet r.path]
    | .ok pkg => [.dbGet r.path, .put pkg zeroTime true (env.putErr pkg.importPath)]

/-- Function `checkPackagesToSuppress` from `background.go`: fail on
`database.New`, `db.AllPackages` or credential-parse errors, then
consume every scorer response in order with the loop body above and
return `nil`. -/
def checkPackagesToSuppress (env : SuppressEnv) :
    Option String × List SuppressEvent :=
  match env.dbNewErr with
  | some e => (some e, [])
  | none =>
    match env.allPackages with
    | .error e => (some e, [])
    | .ok _ =>
      match env.credParseErr with
      | some e => (some e, [])
      | none =>
        (none,
          env.responses.foldr
            (fun r acc => processSuppressResponse env r ++ acc) [])

/-- C9: once the catalog listing succeeds, the run's trace is the
concatenation of every response's own trace (no per-item failure stops
the loop); an erroring or not-to-suppress response contributes no
catalog write, and a to-suppress response whose re-fetch succeeds
contributes exactly the re-fetch and a `db.Put` of the re-fetched
record with the hide flag set and a zero crawl time. -/
theorem checkPackagesToSuppress_per_result (env : SuppressEnv)
    (ps : List String)
    (hdb : env.dbNewErr = none) (hall : env.allPackages = .ok ps)
    (hcred : env.credParseErr = none) :
    ((checkPackagesToSuppress env).2 =
        (env.responses.map (processSuppressResponse env)).flatten) ∧
      (∀ r : SuppressResponse, r.error ≠ none ∨ r.suppress = false →
        processSuppressResponse env r = []) ∧
      (∀ (r : SuppressResponse) (pkg : PkgDoc), r.error = none →
        r.suppress = true → env.dbGet r.path = .ok pkg →
        processSuppressResponse env r =
          [.dbGet r.path,
            .put pkg zeroTime true (env.putErr pkg.importPath)]) := by
  refine ⟨?_, ?_, ?_⟩
  · unfold checkPackagesToSuppress
    rw [hdb, hall, hcred]
    simp only []
    induction env.responses with
    | nil => rfl
    | cons r rs ih =>
      simp only [List.foldr_cons, List.map_cons, List.flatten_cons, ih]
  · intro r hr
    unfold processSuppressResponse
    rcases hr with hr | hr
    · rw [if_pos (Option.isSome_iff_ne_none.mpr hr)]
    · rcases hre : r.error with _ | e
      · rw [if_neg (by simp [hre]), if_pos (by simp [hr])]
      · rw [if_pos (by simp [hre])]
  · intro r pkg herr hsup hget
    unfold processSuppressResponse
    rw [if_neg (by simp [herr]), if_neg (by simp [hsup]), hget]

/-- A concrete suppression environment: three scorer responses — one
erroring, one not to suppress, one to suppress — where the re-fetch of
the suppressed package succeeds and its `db.Put` fails. -/
def suppressEnv : SuppressEnv :=
  { dbNewErr := none
    allPackages := .ok ["a", "b", "c"]
    credParseErr := none
    responses :=
      [⟨"a", some "scoring failed", true⟩, ⟨"b", none, false⟩,
        ⟨"c", none, true⟩]
    dbGet := fun p =>
      if p = "c" then .ok ⟨"c", "c-root", "etag-c"⟩ else .error "not found"
    putErr := fun p => if p = "c" then some "put failed" else none }

/-- C9 witness: in `suppressEnv` the erroring and not-to-suppress
responses contribute nothing, and the to-suppress response is
re-fetched and persisted hidden with zero crawl time. -/
theorem checkPackagesToSuppress_per_result_witness :
    suppressEnv.dbNewErr = none ∧
      suppressEnv.allPackages = .ok ["a", "b", "c"] ∧
      suppressEnv.credParseErr = none ∧
      ((checkPackagesToSuppress suppressEnv).2 =
          (suppressEnv.responses.map
            (processSuppressResponse suppressEnv)).flatten ∧
        processSuppressResponse suppressEnv ⟨"a", some "scoring failed", true⟩ =
          [] ∧
        processSuppressResponse suppressEnv ⟨"b", none, false⟩ = [] ∧
        processSuppressResponse suppressEnv ⟨"c", none, true⟩ =
          [.dbGet "c",
            .put ⟨"c", "c-root", "etag-c"⟩ zeroTime true (some "put failed")]) :=
  ⟨rfl, rfl, rfl,
    (checkPackagesToSuppress_per_result suppressEnv ["a", "b", "c"] rfl rfl
        rfl).1,
    (checkPackagesToSuppress_per_result suppressEnv ["a", "b", "c"] rfl rfl
        rfl).2.1 ⟨"a", some "scoring failed", true⟩ (Or.inl (by simp)),
    (checkPackagesToSuppress_per_result suppressEnv ["a", "b", "c"] rfl rfl
        rfl).2.1 ⟨"b", none, false⟩ (Or.inr rfl),
    (checkPackagesToSuppress_per_result suppressEnv ["a", "b", "c"] rfl rfl
        rfl).2.2 ⟨"c", none, true⟩ ⟨"c", "c-root", "etag-c"⟩ rfl rfl rfl⟩

end Gddo
